import Mathlib

/-!
Verification of the retrieval/context-selection pipeline of the
`ragwithagentseach` repository.

The definitions below are a shallow embedding of the Python sources:

* `check_document_relevance` embeds `backend/test/embedder.py`
  (`check_document_relevance`, lines 83-103);
* `google_search`, `extract_urls_from_response` and `enhanced_google_search`
  embed `backend/search.py` (lines 14-61, 63-94, 96-125);
* `chat` embeds the retrieval part of the `/chat` endpoint of
  `backend/main.py` (lines 158-250);
* `test_turn` embeds the per-turn retrieval logic of `backend/test.py`
  (lines 425-533): intent auto-enable, the document branch, the
  `should_use_web_search` predicate, and the context merge;
* `NamespacedVectorStore.retrieve` is modelled from the spec (see its
  doc comment) because the namespaced embedder module imported by
  `backend/test.py` is not among the available sources.

External collaborators (the Pinecone index, the Gemini provider) are
represented as oracle functions or as an `Except`-valued provider response,
so that a retrieval call that raises maps to `.error` and a normal reply
maps to `.ok`.
-/

/-- A langchain `Document` as the pipeline consumes it: the page content
plus the two metadata keys that the chat code reads
(`metadata["source_type"]`, `metadata["file_name"]`). -/
structure Document where
  page_content : String
  source_type : String
  file_name : String
deriving DecidableEq

/-- The session vector store as seen by `check_document_relevance`: the
underlying similarity retriever (`as_retriever(...).invoke(query)` with
`k = 5` and `score_threshold = threshold`) is an external Pinecone call,
embedded as an oracle that may raise (`.error`). -/
structure VectorStore where
  retrieve : String → Rat → Except String (List Document)

/-- Embeds `check_document_relevance` of `backend/test/embedder.py`
(lines 83-103): `if not vector_store: return False, []`, otherwise build
the retriever, invoke it, and `return bool(docs), docs`.  The function
itself catches nothing, so a raising retriever propagates. -/
def check_document_relevance (query : String) (vector_store : Option VectorStore)
    (threshold : Rat) : Except String (Bool × List Document) :=
  match vector_store with
  | none => .ok (false, [])
  | some vs =>
      match vs.retrieve query threshold with
      | .error e => .error e
      | .ok docs => .ok (!docs.isEmpty, docs)

/-- One candidate of a Gemini `generate_content` response, keeping exactly
the fields `google_search` reads: `citation_metadata.citations[*].url`
(appended only when truthy, so a missing/empty url is modelled as `""`)
and `grounding_metadata.grounding_chunks[*].web.uri` (appended whenever
the `web` field is present, modelled as `some uri`). -/
structure Candidate where
  citations : List String
  grounding_chunks : List (Option String)
deriving DecidableEq

/-- A Gemini `generate_content` response: the text plus its candidates. -/
structure GenerateContentResponse where
  text : String
  candidates : List Candidate
deriving DecidableEq

/-- Embeds `google_search` of `backend/search.py` (lines 14-61).  The whole
provider call is wrapped in `try/except` returning `("", [])` on failure;
on success the links are collected with `links.append(...)` in candidate
order, citations before grounding chunks, with no deduplication. -/
def google_search (provider : Except String GenerateContentResponse) :
    String × List String :=
  match provider with
  | .error _ => ("", [])
  | .ok response =>
      let links : List String :=
        response.candidates.foldl (fun links candidate =>
          let links := candidate.citations.foldl
            (fun links url => if url ≠ "" then links ++ [url] else links) links
          candidate.grounding_chunks.foldl
            (fun links w =>
              match w with
              | some uri => links ++ [uri]
              | none => links) links) []
      (response.text, links)

/-- Characters on which the regex `https?://[^\s()<>"\x27]+` of
`extract_urls_from_response` stops. -/
def url_stop_char (c : Char) : Bool :=
  c = ' ' || c = '\t' || c = '\n' || c = '\r' || c = Char.ofNat 12 ||
  c = Char.ofNat 11 || c = '(' || c = ')' || c = '<' || c = '>' ||
  c = '"' || c = '\''

/-- Trailing punctuation stripped by the `while url[-1] in '.,;:!?)]\x7d\x27"'`
loop of `extract_urls_from_response`. -/
def url_trailing_punct (c : Char) : Bool :=
  c = '.' || c = ',' || c = ';' || c = ':' || c = '!' || c = '?' ||
  c = ')' || c = ']' || c = Char.ofNat 125 || c = '\'' || c = '"'

/-- Left-to-right scan reproducing `re.findall` for the pattern
`https?://[^\s()<>"\x27]+`: at each position try to match the scheme, then
take the maximal nonempty run of non-stop characters; matches do not
overlap.  The fuel argument (instantiated with the string length) only
serves termination; each step consumes at least one character. -/
def scan_urls : Nat → List Char → List (List Char)
  | 0, _ => []
  | _ + 1, [] => []
  | fuel + 1, c :: rest =>
      let cs := c :: rest
      let pfxLen : Nat :=
        if cs.take 8 == "https://".data then 8
        else if cs.take 7 == "http://".data then 7
        else 0
      if pfxLen = 0 then scan_urls fuel rest
      else
        let body := (cs.drop pfxLen).takeWhile (fun ch => !(url_stop_char ch))
        if body.isEmpty then scan_urls fuel rest
        else (cs.take pfxLen ++ body) :: scan_urls fuel (cs.drop (pfxLen + body.length))

/-- Embeds `extract_urls_from_response` of `backend/search.py`
(lines 63-94): regex-find all URL-shaped substrings, strip trailing
punctuation, keep those longer than 10 characters that contain a dot. -/
def extract_urls_from_response (response_text : String) : List String :=
  let found := scan_urls response_text.data.length response_text.data
  let cleaned := found.map (fun url => (url.reverse.dropWhile url_trailing_punct).reverse)
  (cleaned.filter (fun url => 10 < url.length && url.contains '.')).map
    (fun url => String.mk url)

/-- Embeds `enhanced_google_search` of `backend/search.py` (lines 96-125):
run `google_search`; when it yields no links but nonempty text, fall back
to regex URL extraction; its own `try/except` (returning `("", [])`) can
only fire on failures of the pure post-processing, which cannot occur. -/
def enhanced_google_search (provider : Except String GenerateContentResponse) :
    String × List String :=
  let res := google_search provider
  if res.2.isEmpty && res.1 ≠ "" then
    let fallback_links := extract_urls_from_response res.1
    if !fallback_links.isEmpty then (res.1, fallback_links) else res
  else res

/-- Inputs of one `/chat` turn of `backend/main.py`, taken after the URL
pre-ingestion loop and the query rewrite (both external pre-steps that
only determine `vector_store` and `rewritten_query` here). -/
structure ChatState where
  force_web_search : Bool
  vector_store : Option VectorStore
  rewritten_query : String
  web_provider : Except String GenerateContentResponse

/-- The retrieval-relevant outcome of a `/chat` turn of `backend/main.py`:
the merged context, the web links, the document evidence, and which of the
two evidence sources was actually consulted. -/
structure ChatOutcome where
  context : String
  search_links : List String
  source_docs : List Document
  doc_lookup_invoked : Bool
  web_lookup_invoked : Bool
deriving DecidableEq

/-- The body of the `try:` block of the `/chat` endpoint of
`backend/main.py` (lines 186-221): document search guarded by
`not force_web_search and app_state["vector_store"]`, then
`if (force_web_search or not context)` the Google search, whose nonempty
result installs the `Google Search Results:` context. -/
def chat_body (s : ChatState) : Except String ChatOutcome :=
  let doc_step : Except String (String × List Document × Bool) :=
    if !s.force_web_search && s.vector_store.isSome then
      match check_document_relevance s.rewritten_query s.vector_store ((7 : Rat)/10) with
      | .error e => .error e
      | .ok res =>
          let docs := res.2
          if !docs.isEmpty then
            .ok (String.intercalate "\n\n" (docs.map (fun d => d.page_content)), docs, true)
          else
            .ok ("", ([] : List Document), true)
    else
      .ok ("", ([] : List Document), false)
  match doc_step with
  | .error e => .error e
  | .ok (context, source_docs, doc_lookup_invoked) =>
      let web_step : String × List String × Bool :=
        if s.force_web_search || context = "" then
          let res := google_search s.web_provider
          if res.1 ≠ "" then
            ("Google Search Results:\n" ++ res.1, res.2, true)
          else
            (context, res.2, true)
        else
          (context, ([] : List String), false)
      .ok { context := web_step.1, search_links := web_step.2.1, source_docs := source_docs,
            doc_lookup_invoked := doc_lookup_invoked, web_lookup_invoked := web_step.2.2 }

/-- Embeds the `/chat` endpoint of `backend/main.py` (lines 158-250): the
single surrounding `except Exception` re-raises every failure of the body
as `HTTPException(500, "Error processing message: ...")`, here an
`.error` carrying that detail string. -/
def chat (s : ChatState) : Except String ChatOutcome :=
  match chat_body s with
  | .ok r => .ok r
  | .error e => .error ("Error processing message: " ++ e)

/-- Inputs of one chat turn of `backend/test.py` after the URL
pre-ingestion and query rewrite: the `force_web_search` checkbox, the
`use_web_search` sidebar toggle as it enters the turn, the result of
`detect_google_search_intent`, the session vector store, the rewritten
query, the similarity threshold, and the web provider oracle. -/
structure TurnState where
  force_web_search : Bool
  use_web_search : Bool
  search_intent : Bool
  vector_store : Option VectorStore
  rewritten_query : String
  similarity_threshold : Rat
  web_provider : Except String GenerateContentResponse

/-- The retrieval-relevant outcome of a `backend/test.py` chat turn. -/
structure TurnOutcome where
  context : String
  search_links : List String
  docs : List Document
  use_web_search_after : Bool
  doc_lookup_invoked : Bool
  web_lookup_invoked : Bool
deriving DecidableEq

/-- Embeds the per-turn retrieval logic of `backend/test.py`
(lines 425-533):

* lines 432-438: intent detection auto-enables the toggle
  (`if search_intent_detected and not use_web_search: use_web_search = True`);
* lines 443-464: the document branch, guarded by
  `not force_web_search and vector_store`, calling
  `check_document_relevance` with no surrounding `try`, so a raising
  store propagates (`.error`);
* lines 472-476: `should_use_web_search`, the disjunction written in the
  source;
* lines 483-500: the Google search (which swallows provider failures
  itself) and the context merge appending
  `--- Additional Information from Google Search ---` after existing
  document context. -/
def test_turn (s : TurnState) : Except String TurnOutcome :=
  let use_web := if s.search_intent && !s.use_web_search then true else s.use_web_search
  let doc_step : Except String (List Document × Bool) :=
    if !s.force_web_search && s.vector_store.isSome then
      match check_document_relevance s.rewritten_query s.vector_store s.similarity_threshold with
      | .error e => .error e
      | .ok res => .ok (res.2, true)
    else
      .ok (([] : List Document), false)
  match doc_step with
  | .error e => .error e
  | .ok (docs, doc_lookup_invoked) =>
      let context :=
        if !docs.isEmpty then String.intercalate "\n\n" (docs.map (fun d => d.page_content))
        else ""
      let should_use_web :=
        s.force_web_search ||
        (docs.isEmpty && use_web && s.search_intent) ||
        (use_web && s.search_intent)
      let web_step : String × List String × Bool :=
        if should_use_web then
          let res := google_search s.web_provider
          if res.1 ≠ "" then
            if context ≠ "" then
              (context ++ "\n\n--- Additional Information from Google Search ---\n\n" ++ res.1,
               res.2, true)
            else
              ("Google Search Results:\n" ++ res.1, res.2, true)
          else
            (context, res.2, true)
        else
          (context, ([] : List String), false)
      .ok { context := web_step.1, search_links := web_step.2.1, docs := docs,
            use_web_search_after := use_web, doc_lookup_invoked := doc_lookup_invoked,
            web_lookup_invoked := web_step.2.2 }

/-- Modelled from the spec: the namespaced vector store.  The embedder
module with namespace support that `backend/test.py` imports
(`create_vector_store(..., namespace=...)`,
`check_document_relevance(..., namespace=...)`) is not among the
available sources (only the non-namespaced `backend/test/embedder.py`
is), so the store follows spec section 4.1: upserts record the namespace
with each chunk, and `retrieve(query, namespace, threshold, k)` "must
only search within the given namespace", keeping chunks whose similarity
reaches the threshold, ranked by similarity descending with ties kept in
insertion order, truncated to `k`.  Similarity scoring is the external
embedding provider, an oracle field. -/
structure NamespacedVectorStore where
  entries : List (String × Document)
  score : String → Document → Rat

/-- Modelled from the spec: `ingest(chunks, namespace)` upserts the
chunks under the given namespace (spec section 4.1). -/
def NamespacedVectorStore.ingest (store : NamespacedVectorStore)
    (chunks : List Document) (ns : String) : NamespacedVectorStore :=
  { store with entries := store.entries ++ chunks.map (fun c => (ns, c)) }

/-- Stable insertion (descending by score) used by the spec-modelled
ranking: an element is placed after every earlier element with a score
at least as large. -/
def insert_by_score (score : Document → Rat) (x : String × Document) :
    List (String × Document) → List (String × Document)
  | [] => [x]
  | y :: ys =>
      if score x.2 < score y.2 then y :: insert_by_score score x ys
      else x :: y :: ys

/-- Stable insertion sort, descending by score. -/
def sort_by_score (score : Document → Rat) :
    List (String × Document) → List (String × Document)
  | [] => []
  | x :: xs => insert_by_score score x (sort_by_score score xs)

/-- Modelled from the spec: `retrieve(query, namespace, threshold, k)`
(spec section 4.1) — only entries of the given namespace are searched,
those below the similarity threshold are dropped, the rest are ranked by
similarity descending (stable) and truncated to the top `k`. -/
def NamespacedVectorStore.retrieve (store : NamespacedVectorStore)
    (query ns : String) (threshold : Rat) (k : Nat) : List Document :=
  let candidates := store.entries.filter
    (fun e => e.1 == ns && decide (threshold ≤ store.score query e.2))
  ((sort_by_score (store.score query) candidates).map (fun e => e.2)).take k

/-- A sample document chunk used by the concrete evaluations below. -/
def doc_a : Document :=
  { page_content := "alpha", source_type := "document", file_name := "a.pdf" }

/-- A session store whose retriever always finds the single chunk `doc_a`. -/
def one_doc_store : VectorStore :=
  { retrieve := fun _ _ => .ok [doc_a] }

/-- A store whose backing index raises on every query (Pinecone down). -/
def failing_store : VectorStore :=
  { retrieve := fun _ _ => .error "pinecone unavailable" }

/-- A namespaced store with no entries and a constant similarity oracle. -/
def empty_ns_store : NamespacedVectorStore :=
  { entries := [], score := fun _ _ => 1 }

/-- A provider response citing the same URL twice. -/
def dup_response : GenerateContentResponse :=
  { text := "t",
    candidates := [{ citations := ["http://u.example", "http://u.example"],
                     grounding_chunks := [] }] }

/-- A well-formed provider response with one grounded source link. -/
def web_response : GenerateContentResponse :=
  { text := "WEBRESULT",
    candidates := [{ citations := ["http://source.example"], grounding_chunks := [] }] }

/-- Concrete `/chat` state with the force-web-search flag raised and a
populated vector store. -/
def c2_chat_state : ChatState :=
  { force_web_search := true, vector_store := some one_doc_store,
    rewritten_query := "q", web_provider := .ok web_response }

/-- Concrete `backend/test.py` turn with the force flag raised and a
populated vector store. -/
def c2_turn_state : TurnState :=
  { force_web_search := true, use_web_search := false, search_intent := false,
    vector_store := some one_doc_store, rewritten_query := "q",
    similarity_threshold := (7 : Rat)/10, web_provider := .ok web_response }

/-- Concrete turn with no ingested content, web toggle off, intent on. -/
def c3_state : TurnState :=
  { force_web_search := false, use_web_search := false, search_intent := true,
    vector_store := none, rewritten_query := "q",
    similarity_threshold := (7 : Rat)/10, web_provider := .ok web_response }

/-- Concrete turn with a document hit, web toggle off, intent on. -/
def c4_state : TurnState :=
  { force_web_search := false, use_web_search := false, search_intent := true,
    vector_store := some one_doc_store, rewritten_query := "q",
    similarity_threshold := (7 : Rat)/10, web_provider := .ok web_response }

/-- Concrete turn with a document hit, web toggle off, intent off. -/
def c4_quiet_state : TurnState :=
  { force_web_search := false, use_web_search := false, search_intent := false,
    vector_store := some one_doc_store, rewritten_query := "q",
    similarity_threshold := (7 : Rat)/10, web_provider := .ok web_response }

/-- Concrete `/chat` state whose document store raises. -/
def c5_state : ChatState :=
  { force_web_search := false, vector_store := some failing_store,
    rewritten_query := "q", web_provider := .ok web_response }

/-- Concrete `/chat` state with no store and a failing web provider. -/
def c5_web_down_state : ChatState :=
  { force_web_search := false, vector_store := none,
    rewritten_query := "q", web_provider := .error "timeout" }

/-- Concrete turn producing both document evidence and web evidence. -/
def c9_state : TurnState :=
  { force_web_search := false, use_web_search := true, search_intent := true,
    vector_store := some one_doc_store, rewritten_query := "q",
    similarity_threshold := (7 : Rat)/10, web_provider := .ok web_response }

/-- The context of a turn outcome (empty when the turn raised). -/
def outcome_context (x : Except String TurnOutcome) : String :=
  match x with
  | .ok r => r.context
  | .error _ => ""

/-- The retrieved documents of a turn outcome (empty when the turn raised). -/
def outcome_docs (x : Except String TurnOutcome) : List Document :=
  match x with
  | .ok r => r.docs
  | .error _ => []

/-- Whether the turn ran the Google search (false when the turn raised). -/
def outcome_web_invoked (x : Except String TurnOutcome) : Bool :=
  match x with
  | .ok r => r.web_lookup_invoked
  | .error _ => false

/-- The truthy citation urls of a candidate followed by its grounding
uris: the per-candidate contribution of `google_search`'s extraction. -/
def candidate_links (c : Candidate) : List String :=
  c.citations.filter (fun u => u ≠ "") ++ c.grounding_chunks.filterMap id

theorem foldl_snoc_filter (l : List String) (acc : List String) :
    l.foldl (fun a u => if u ≠ "" then a ++ [u] else a) acc =
      acc ++ l.filter (fun u => u ≠ "") := by
  induction l generalizing acc with
  | nil => simp
  | cons x xs ih =>
      rw [List.foldl_cons, ih]
      by_cases hx : x = ""
      · simp [hx]
      · simp [hx]

theorem foldl_snoc_filterMap (l : List (Option String)) (acc : List String) :
    l.foldl (fun a w => match w with | some uri => a ++ [uri] | none => a) acc =
      acc ++ l.filterMap id := by
  induction l generalizing acc with
  | nil => simp
  | cons x xs ih =>
      cases x <;> simp [ih]

theorem foldl_candidates (cs : List Candidate) (acc : List String) :
    cs.foldl (fun links candidate =>
        let links := candidate.citations.foldl
          (fun links url => if url ≠ "" then links ++ [url] else links) links
        candidate.grounding_chunks.foldl
          (fun links w =>
            match w with
            | some uri => links ++ [uri]
            | none => links) links) acc =
      acc ++ (cs.map candidate_links).flatten := by
  induction cs generalizing acc with
  | nil => simp
  | cons c cs ih =>
      simp only [List.foldl_cons]
      rw [ih, foldl_snoc_filterMap, foldl_snoc_filter]
      simp [candidate_links, List.append_assoc]

/-- C6: on a provider failure (exception or timeout) `google_search`
returns the pair `("", [])` instead of raising, and so does
`enhanced_google_search`. -/
theorem google_search_provider_failure_empty (e : String) :
    google_search (.error e) = ("", []) ∧ enhanced_google_search (.error e) = ("", []) :=
  ⟨rfl, rfl⟩

/-- C7 counterexample: a provider response citing the same URL twice makes
`google_search` (and hence `enhanced_google_search`) return a links list
containing that URL twice — the claimed deduplication does not exist. -/
theorem google_search_duplicate_links :
    (google_search (.ok dup_response)).2 = ["http://u.example", "http://u.example"] ∧
    ¬ (google_search (.ok dup_response)).2.Nodup ∧
    (enhanced_google_search (.ok dup_response)).2 =
      ["http://u.example", "http://u.example"] := by
  refine ⟨rfl, ?_, rfl⟩
  decide

/-- C7 (amended): the links returned by `google_search` are, in
first-seen provider order, each candidate's truthy citation URLs followed
by its grounding URIs; duplicates are kept, nothing is removed. -/
theorem google_search_links_order (response : GenerateContentResponse) :
    google_search (.ok response) =
      (response.text, (response.candidates.map candidate_links).flatten) := by
  have h := foldl_candidates response.candidates []
  rw [List.nil_append] at h
  exact congrArg (fun l => (response.text, l)) h

/-- C10: `check_document_relevance` returns `(False, [])` when the vector
store is missing (falsy), before any retriever is built, and whenever it
returns normally the boolean is true exactly when the document list is
non-empty. -/
theorem check_document_relevance_contract :
    (∀ (query : String) (threshold : Rat),
      check_document_relevance query none threshold = .ok (false, [])) ∧
    (∀ (query : String) (vs : Option VectorStore) (threshold : Rat)
        (has : Bool) (docs : List Document),
      check_document_relevance query vs threshold = .ok (has, docs) →
      (has = true ↔ docs ≠ [])) := by
  constructor
  · intro query threshold
    rfl
  · intro query vs threshold has docs h
    cases vs with
    | none =>
        simp only [check_document_relevance] at h
        simp only [Except.ok.injEq, Prod.mk.injEq] at h
        obtain ⟨h1, h2⟩ := h
        subst h1; subst h2
        simp
    | some store =>
        simp only [check_document_relevance] at h
        cases hr : store.retrieve query threshold with
        | error e =>
            rw [hr] at h
            exact absurd h (by simp)
        | ok ds =>
            rw [hr] at h
            simp only [Except.ok.injEq, Prod.mk.injEq] at h
            obtain ⟨h1, h2⟩ := h
            subst h1; subst h2
            cases ds <;> simp

/-- C10 witness: a populated store makes the boolean true together with a
non-empty list. -/
theorem check_document_relevance_contract_witness :
    check_document_relevance "q" (some one_doc_store) ((7 : Rat)/10) = .ok (true, [doc_a]) ∧
    (true = true ↔ ([doc_a] : List Document) ≠ []) :=
  ⟨rfl, check_document_relevance_contract.2 "q" (some one_doc_store) ((7 : Rat)/10)
    true [doc_a] rfl⟩

theorem mem_insert_by_score {score : Document → Rat} {x y : String × Document}
    {l : List (String × Document)} (h : y ∈ insert_by_score score x l) :
    y = x ∨ y ∈ l := by
  induction l with
  | nil =>
      simp only [insert_by_score, List.mem_singleton] at h
      exact Or.inl h
  | cons z zs ih =>
      simp only [insert_by_score] at h
      by_cases hz : score x.2 < score z.2
      · rw [if_pos hz] at h
        rcases List.mem_cons.mp h with h1 | h1
        · exact Or.inr (List.mem_cons.mpr (Or.inl h1))
        · rcases ih h1 with h2 | h2
          · exact Or.inl h2
          · exact Or.inr (List.mem_cons.mpr (Or.inr h2))
      · rw [if_neg hz] at h
        rcases List.mem_cons.mp h with h1 | h1
        · exact Or.inl h1
        · exact Or.inr h1

theorem mem_sort_by_score {score : Document → Rat} {y : String × Document}
    {l : List (String × Document)} (h : y ∈ sort_by_score score l) : y ∈ l := by
  induction l with
  | nil => simp [sort_by_score] at h
  | cons z zs ih =>
      simp only [sort_by_score] at h
      rcases mem_insert_by_score h with h1 | h1
      · exact List.mem_cons.mpr (Or.inl h1)
      · exact List.mem_cons.mpr (Or.inr (ih h1))

/-- C1: namespace isolation of the spec-modelled namespaced store — a
chunk ingested into session A's namespace is never among the documents
retrieved under session B's distinct namespace, provided the chunk was
not independently present in the store beforehand. -/
theorem retrieve_namespace_isolation
    (base : NamespacedVectorStore) (chunks : List Document) (c : Document)
    (nsA nsB query : String) (threshold : Rat) (k : Nat)
    (hAB : nsA ≠ nsB)
    (hfresh : ∀ p ∈ base.entries, p.2 ≠ c)
    (_hc : c ∈ chunks) :
    c ∉ (base.ingest chunks nsA).retrieve query nsB threshold k := by
  intro hmem
  unfold NamespacedVectorStore.retrieve at hmem
  have h1 := List.mem_of_mem_take hmem
  rw [List.mem_map] at h1
  obtain ⟨e, he, hec⟩ := h1
  have he2 := mem_sort_by_score he
  rw [List.mem_filter] at he2
  obtain ⟨hent, hcond⟩ := he2
  have hens : e.1 = nsB := by
    have := (Bool.and_eq_true _ _).mp hcond
    exact beq_iff_eq.mp this.1
  unfold NamespacedVectorStore.ingest at hent
  simp only [List.mem_append, List.mem_map] at hent
  rcases hent with hbase | ⟨d, _, hde⟩
  · exact hfresh e hbase hec
  · have : e.1 = nsA := by rw [← hde]
    exact hAB (this ▸ hens ▸ rfl)

/-- C1 witness: the chunk `doc_a`, ingested into `session_a`, is not
retrieved under `session_b`. -/
theorem retrieve_namespace_isolation_witness :
    ("session_a" : String) ≠ "session_b" ∧
    doc_a ∉ (empty_ns_store.ingest [doc_a] "session_a").retrieve "q" "session_b" 0 5 :=
  ⟨by decide,
   retrieve_namespace_isolation empty_ns_store [doc_a] doc_a "session_a" "session_b"
     "q" 0 5 (by decide) (by simp [empty_ns_store]) (by simp)⟩

/-- C2: with `force_web_search` raised, neither chat variant ever invokes
`check_document_relevance`, and the document evidence stays empty, even
when a populated vector store exists. -/
theorem force_web_search_skips_doc_lookup (s : ChatState) (t : TurnState)
    (hs : s.force_web_search = true) (ht : t.force_web_search = true) :
    (∃ r, chat s = .ok r ∧ r.doc_lookup_invoked = false ∧ r.source_docs = []) ∧
    (∃ u, test_turn t = .ok u ∧ u.doc_lookup_invoked = false ∧ u.docs = []) := by
  constructor
  · simp only [chat, chat_body, hs, Bool.not_true, Bool.false_and, Bool.false_eq_true,
      if_false, Bool.true_or, if_true]
    exact ⟨_, rfl, rfl, rfl⟩
  · simp only [test_turn, ht, Bool.not_true, Bool.false_and, Bool.false_eq_true,
      if_false, Bool.true_or, if_true]
    exact ⟨_, rfl, rfl, rfl⟩

/-- C2 witness: both concrete forced states skip the document lookup. -/
theorem force_web_search_skips_doc_lookup_witness :
    c2_chat_state.force_web_search = true ∧ c2_turn_state.force_web_search = true ∧
    ((∃ r, chat c2_chat_state = .ok r ∧ r.doc_lookup_invoked = false ∧ r.source_docs = []) ∧
     (∃ u, test_turn c2_turn_state = .ok u ∧ u.doc_lookup_invoked = false ∧ u.docs = [])) :=
  ⟨rfl, rfl, force_web_search_skips_doc_lookup c2_chat_state c2_turn_state rfl rfl⟩

/-- C3 counterexample: with no ingested content, `web_search_enabled`
(the `use_web_search` toggle) off and `force_web_search` off, an intent
signal alone makes the `backend/test.py` turn run the web search — the
claimed `web_search_enabled AND (force OR intent)` gate does not hold. -/
theorem no_ingested_content_web_policy_cex :
    outcome_web_invoked (test_turn c3_state) = true ∧
    c3_state.use_web_search = false ∧ c3_state.force_web_search = false ∧
    c3_state.vector_store = none :=
  ⟨rfl, rfl, rfl, rfl⟩

/-- C3 (amended): with no ingested content, the web search runs exactly
when `force_web_search OR intent_signal` holds — the intent signal
auto-enables the toggle and the force flag bypasses it, so the
`web_search_enabled` toggle has no veto. -/
theorem no_ingested_content_web_policy (s : TurnState) (h : s.vector_store = none) :
    outcome_web_invoked (test_turn s) = (s.force_web_search || s.search_intent) := by
  obtain ⟨f, use, intent, vs, q, th, wp⟩ := s
  obtain rfl : vs = none := h
  rcases wp with e | ⟨text, cands⟩
  · cases f <;> cases use <;> cases intent <;> rfl
  · by_cases htext : text = ""
    · subst htext
      cases f <;> cases use <;> cases intent <;> rfl
    · cases f <;> cases use <;> cases intent <;>
        simp [outcome_web_invoked, test_turn, google_search, htext]

/-- C3 witness: the amended rule evaluated at the concrete no-content
state. -/
theorem no_ingested_content_web_policy_witness :
    c3_state.vector_store = none ∧
    outcome_web_invoked (test_turn c3_state) =
      (c3_state.force_web_search || c3_state.search_intent) :=
  ⟨rfl, no_ingested_content_web_policy c3_state rfl⟩

/-- C4 counterexample: a turn whose document retrieval returns a chunk and
whose `use_web_search` toggle is off still invokes the Google search,
because the intent signal auto-enables the toggle. -/
theorem doc_hit_web_disabled_cex :
    outcome_docs (test_turn c4_state) = [doc_a] ∧
    c4_state.use_web_search = false ∧
    outcome_web_invoked (test_turn c4_state) = true :=
  ⟨rfl, rfl, rfl⟩

/-- C4 (amended): when document retrieval returned at least one chunk,
`use_web_search` is off and additionally no intent signal fired, the
Google search is never invoked. -/
theorem doc_hit_web_disabled_no_intent (s : TurnState) (r : TurnOutcome)
    (hok : test_turn s = .ok r) (hdocs : r.docs ≠ [])
    (huse : s.use_web_search = false) (hintent : s.search_intent = false) :
    r.web_lookup_invoked = false := by
  obtain ⟨f, use, intent, vs, q, th, wp⟩ := s
  obtain rfl : use = false := huse
  obtain rfl : intent = false := hintent
  cases f with
  | true =>
      cases hok
      exact absurd rfl hdocs
  | false =>
      cases vs with
      | none =>
          cases hok
          exact absurd rfl hdocs
      | some store =>
          cases hr : store.retrieve q th with
          | error e =>
              simp [test_turn, check_document_relevance, hr] at hok
          | ok ds =>
              simp [test_turn, check_document_relevance, hr] at hok
              subst hok
              simp

/-- C4 witness: with a document hit, toggle off and no intent, the
concrete quiet turn does not run the web search. -/
theorem doc_hit_web_disabled_no_intent_witness :
    ([doc_a] : List Document) ≠ [] ∧
    c4_quiet_state.use_web_search = false ∧ c4_quiet_state.search_intent = false ∧
    outcome_web_invoked (test_turn c4_quiet_state) = false := by
  refine ⟨by simp, rfl, rfl, ?_⟩
  exact doc_hit_web_disabled_no_intent c4_quiet_state
    { context := "alpha", search_links := [], docs := [doc_a],
      use_web_search_after := false, doc_lookup_invoked := true,
      web_lookup_invoked := false } rfl (by simp) rfl rfl

/-- C5 counterexample: a raising document store is not caught at the
per-source call — the `/chat` turn of `backend/main.py` surfaces it to
the caller as an HTTP 500 `Error processing message` failure. -/
theorem doc_failure_propagates_cex :
    chat c5_state = .error "Error processing message: pinecone unavailable" :=
  rfl

/-- C5 (amended): a failing web provider never aborts the turn — whenever
the document side cannot raise (forced web search, no store, or a store
whose retrieval succeeds), the `/chat` turn completes normally for every
web provider behaviour; only a document-store failure propagates. -/
theorem web_failure_never_propagates (s : ChatState)
    (hdoc : s.force_web_search = true ∨ s.vector_store = none ∨
      ∃ v, check_document_relevance s.rewritten_query s.vector_store ((7 : Rat)/10) = .ok v) :
    ∃ r, chat s = .ok r := by
  obtain ⟨f, vs, q, wp⟩ := s
  rcases hdoc with hf | hvs | ⟨v, hv⟩
  · obtain rfl : f = true := hf
    simp only [chat, chat_body, Bool.not_true, Bool.false_and, Bool.false_eq_true,
      if_false, Bool.true_or, if_true]
    exact ⟨_, rfl⟩
  · obtain rfl : vs = none := hvs
    cases f <;>
      simp only [chat, chat_body, Option.isSome_none, Bool.and_false, Bool.not_true,
        Bool.not_false, Bool.true_and, Bool.false_and, Bool.false_eq_true, if_false,
        Bool.true_or, if_true] <;>
      exact ⟨_, rfl⟩
  · cases f with
    | true =>
        simp only [chat, chat_body, Bool.not_true, Bool.false_and, Bool.false_eq_true,
          if_false, Bool.true_or, if_true]
        exact ⟨_, rfl⟩
    | false =>
        cases vs with
        | none =>
            simp only [chat, chat_body, Option.isSome_none, Bool.and_false,
              Bool.false_eq_true, if_false]
            exact ⟨_, rfl⟩
        | some store =>
            dsimp only at hv
            obtain ⟨b, docs⟩ := v
            cases hd : docs.isEmpty <;>
              simp only [chat, chat_body, Bool.not_false, Option.isSome_some, Bool.true_and,
                eq_self_iff_true, if_true, hv, hd, Bool.not_true, Bool.not_false,
                Bool.false_eq_true, if_false] <;>
              exact ⟨_, rfl⟩

/-- C5 witness: with no store and a timed-out web provider the turn still
returns normally. -/
theorem web_failure_never_propagates_witness :
    c5_web_down_state.vector_store = none ∧ ∃ r, chat c5_web_down_state = .ok r :=
  ⟨rfl, web_failure_never_propagates c5_web_down_state (Or.inr (Or.inl rfl))⟩

/-- C8 counterexample: no cap bounds the merged context — for every
candidate cap there is a turn (one retrieved chunk of length cap + 1)
whose context is longer, so the claimed implementation-defined bound does
not exist. -/
theorem context_unbounded_cex :
    ¬ ∃ cap : Nat, ∀ (s : TurnState) (r : TurnOutcome),
        test_turn s = .ok r → r.context.length ≤ cap := by
  rintro ⟨cap, h⟩
  have h2 := h
    { force_web_search := false, use_web_search := false, search_intent := false,
      vector_store := some
        { retrieve := fun _ _ =>
            .ok [{ page_content := String.mk (List.replicate (cap + 1) 'a'),
                   source_type := "", file_name := "" }] },
      rewritten_query := "", similarity_threshold := 0, web_provider := .error "" }
    { context := String.mk (List.replicate (cap + 1) 'a'), search_links := [],
      docs := [{ page_content := String.mk (List.replicate (cap + 1) 'a'),
                 source_type := "", file_name := "" }],
      use_web_search_after := false, doc_lookup_invoked := true,
      web_lookup_invoked := false }
    rfl
  simp only [String.length_mk, List.length_replicate] at h2
  omega

/-- C8 (amended): no truncation is applied — whenever document chunks were
retrieved, the full blank-line join of every chunk is kept intact as a
prefix of the merged context (web text, when any, is appended after it);
no chunk is dropped or cut. -/
theorem context_keeps_all_chunks (s : TurnState) (r : TurnOutcome)
    (hok : test_turn s = .ok r) (hdocs : r.docs ≠ []) :
    ∃ tail, r.context =
      String.intercalate "\n\n" (r.docs.map (fun d => d.page_content)) ++ tail := by
  obtain ⟨f, use, intent, vs, q, th, wp⟩ := s
  cases f with
  | true =>
      cases hok
      exact absurd rfl hdocs
  | false =>
      cases vs with
      | none =>
          cases hok
          exact absurd rfl hdocs
      | some store =>
          cases hr : store.retrieve q th with
          | error e =>
              simp [test_turn, check_document_relevance, hr] at hok
          | ok ds =>
              simp [test_turn, check_document_relevance, hr] at hok
              subst hok
              simp only at hdocs
              have hde : ds.isEmpty = false := by
                cases ds with
                | nil => exact absurd rfl hdocs
                | cons d l => rfl
              simp only [hde, Bool.not_false, if_true, Bool.false_or, Bool.false_and,
                Bool.and_false, eq_self_iff_true]
              repeat' split
              all_goals
                first
                  | exact ⟨_, by rw [String.append_assoc]⟩
                  | exact ⟨"", (String.append_empty _).symm⟩
                  | (rename_i hcond
                     have hj : "\n\n".intercalate (List.map (fun d => d.page_content) ds) = "" := by
                       by_contra hj
                       exact hcond ⟨hdocs, hj⟩
                     rw [hj]
                     exact ⟨_, (String.empty_append _).symm⟩)

/-- C8 witness: a quiet turn with one retrieved chunk keeps the full join
of its chunks as a prefix of the context. -/
theorem context_keeps_all_chunks_witness :
    ([doc_a] : List Document) ≠ [] ∧
    ∃ tail, outcome_context (test_turn c4_quiet_state) =
      String.intercalate "\n\n"
        ((outcome_docs (test_turn c4_quiet_state)).map (fun d => d.page_content)) ++ tail :=
  ⟨by simp,
   context_keeps_all_chunks c4_quiet_state
     { context := "alpha", search_links := [], docs := [doc_a],
       use_web_search_after := false, doc_lookup_invoked := true,
       web_lookup_invoked := false } rfl (by simp)⟩

/-- C9 counterexample: with both evidences present the merged context
begins with the bare chunk text itself — the document block is preceded
by no label at all (only the web block gets the `--- Additional
Information from Google Search ---` marker), refuting "each of the two
blocks carries a distinguishing label". -/
theorem merge_doc_block_unlabeled_cex :
    outcome_docs (test_turn c9_state) = [doc_a] ∧
    outcome_web_invoked (test_turn c9_state) = true ∧
    outcome_context (test_turn c9_state) =
      doc_a.page_content ++
        "\n\n--- Additional Information from Google Search ---\n\n" ++ "WEBRESULT" :=
  ⟨rfl, rfl, rfl⟩

/-- C9 (amended): when a turn has non-empty document evidence and
non-empty web evidence, the document text always precedes the web text in
the merged context, with the `--- Additional Information from Google
Search ---` marker labelling the web block; the document block itself is
unlabeled. -/
theorem merge_doc_before_web (s : TurnState) (r : TurnOutcome)
    (hok : test_turn s = .ok r)
    (hjoin : String.intercalate "\n\n" (r.docs.map (fun d => d.page_content)) ≠ "")
    (hweb : r.web_lookup_invoked = true)
    (htext : (google_search s.web_provider).1 ≠ "") :
    r.context = String.intercalate "\n\n" (r.docs.map (fun d => d.page_content)) ++
      "\n\n--- Additional Information from Google Search ---\n\n" ++
      (google_search s.web_provider).1 := by
  obtain ⟨f, use, intent, vs, q, th, wp⟩ := s
  cases f with
  | true =>
      cases hok
      exact absurd rfl hjoin
  | false =>
      cases vs with
      | none =>
          cases hok
          exact absurd rfl hjoin
      | some store =>
          cases hr : store.retrieve q th with
          | error e =>
              simp [test_turn, check_document_relevance, hr] at hok
          | ok ds =>
              simp [test_turn, check_document_relevance, hr] at hok
              subst hok
              have hjoin2 : String.intercalate "\n\n" (ds.map (fun d => d.page_content)) ≠ "" :=
                hjoin
              have hdocs : ds ≠ [] := by
                intro hnil
                exact hjoin2 (by rw [hnil]; rfl)
              have hde : ds.isEmpty = false := by
                cases ds with
                | nil => exact absurd rfl hdocs
                | cons d l => rfl
              simp only [hde, Bool.not_false, if_true, Bool.false_or, Bool.false_and,
                Bool.and_false, eq_self_iff_true] at hweb ⊢
              repeat' split
              all_goals first
                | rfl
                | (exfalso
                   rename_i hcond
                   first
                     | exact htext (not_not.mp hcond)
                     | exact hcond ⟨hdocs, hjoin2⟩
                     | (rw [if_neg hcond] at hweb
                        exact Bool.false_ne_true hweb))

/-- C9 witness: the concrete turn with one chunk and a web result merges
document text first, then the labelled web block. -/
theorem merge_doc_before_web_witness :
    outcome_context (test_turn c9_state) =
      String.intercalate "\n\n" ((outcome_docs (test_turn c9_state)).map
        (fun d => d.page_content)) ++
      "\n\n--- Additional Information from Google Search ---\n\n" ++
      (google_search c9_state.web_provider).1 :=
  merge_doc_before_web c9_state
    { context := "alpha\n\n--- Additional Information from Google Search ---\n\nWEBRESULT",
      search_links := ["http://source.example"], docs := [doc_a],
      use_web_search_after := true, doc_lookup_invoked := true,
      web_lookup_invoked := true } rfl (by decide) rfl (by decide)
